import Mathlib

set_option autoImplicit false

/- Verification of the metrix telemetry routing core, shallowly embedded from
   the Rust sources: src/instruments/mod.rs (label filter, update projection),
   src/instruments/panel.rs (panel routing node) and src/processor.rs
   (telemetry processor, processor mount).  Instants and durations are
   modelled as integers; external collaborators (instrument adapters, boxed
   handlers, snapshooters, the channel) are modelled at their interface
   boundary.  Mutation is modelled by explicit state passing: every Rust
   method that mutates `self` becomes a function returning the new value. -/

/-- Modelled from the spec: the numeric payload type `ObservedValue` carried
by `Observation::ObservedOneValue` is defined in lib.rs, which is not among
the provided sources.  Its internals are irrelevant to the routing layer, so
it is modelled as an integer. -/
abbrev ObservedValue := Int

/-- Rust `std::time::Instant`, modelled as an integer point in time. -/
abbrev Instant := Int

/-- Rust `std::time::Duration`, modelled as an integer span of time. -/
abbrev Duration := Int

/-- Modelled from the spec: `Observation<L>` is defined in lib.rs, which is
not among the provided sources.  Per the spec (and the patterns matched by
the projections in src/instruments/mod.rs) it is a tagged union of
`Observed{label, count, timestamp}`, `ObservedOne{label, timestamp}` and
`ObservedOneValue{label, value, timestamp}`. -/
inductive Observation (L : Type) where
  | Observed (label : L) (count : Nat) (timestamp : Instant)
  | ObservedOne (label : L) (timestamp : Instant)
  | ObservedOneValue (label : L) (value : ObservedValue) (timestamp : Instant)
  deriving DecidableEq

/-- Modelled from the spec: the `ObservationLike` label accessor of lib.rs. -/
def Observation.label {L : Type} : Observation L → L
  | .Observed l _ _ => l
  | .ObservedOne l _ => l
  | .ObservedOneValue l _ _ => l

/-- Modelled from the spec: the `ObservationLike` timestamp accessor of
lib.rs; every variant carries exactly one timestamp. -/
def Observation.timestamp {L : Type} : Observation L → Instant
  | .Observed _ _ t => t
  | .ObservedOne _ t => t
  | .ObservedOneValue _ _ t => t

/-- An update instruction for an instrument (src/instruments/mod.rs). -/
inductive Update where
  | Observations (count : Nat) (timestamp : Instant)
  | Observation (timestamp : Instant)
  | ObservationWithValue (value : ObservedValue) (timestamp : Instant)
  deriving DecidableEq

/-- A label with the associated `Update` (src/instruments/mod.rs); the Rust
tuple struct `LabelAndUpdate<T>(pub T, pub Update)`. -/
structure LabelAndUpdate (T : Type) where
  label : T
  update : Update
  deriving DecidableEq

/-- The consuming projection `impl From<Observation<T>> for LabelAndUpdate<T>`
(src/instruments/mod.rs); `from` is a reserved word in Lean, hence the
suffixed name. -/
def LabelAndUpdate.from_observation {T : Type} : Observation T → LabelAndUpdate T
  | .Observed label count timestamp => ⟨label, .Observations count timestamp⟩
  | .ObservedOne label timestamp => ⟨label, .Observation timestamp⟩
  | .ObservedOneValue label value timestamp => ⟨label, .ObservationWithValue value timestamp⟩

/-- A label with the associated `Update` (src/instruments/mod.rs); the Rust
tuple struct `BorrowedLabelAndUpdate<'a, T>(pub &'a T, pub Update)`.  The
borrow is modelled by value. -/
structure BorrowedLabelAndUpdate (T : Type) where
  label : T
  update : Update
  deriving DecidableEq

/-- The borrowing projection
`impl From<&'a Observation<T>> for BorrowedLabelAndUpdate<'a, T>`
(src/instruments/mod.rs); the Rust body copies `*count`, `*value` and
`*timestamp` out of the borrowed observation. -/
def BorrowedLabelAndUpdate.from_observation {T : Type} :
    Observation T → BorrowedLabelAndUpdate T
  | .Observed label count timestamp => ⟨label, .Observations count timestamp⟩
  | .ObservedOne label timestamp => ⟨label, .Observation timestamp⟩
  | .ObservedOneValue label value timestamp => ⟨label, .ObservationWithValue value timestamp⟩

/-- The label filter (src/instruments/mod.rs): a closed set of states with
size-specialized variants for up to five labels. -/
inductive LabelFilter (L : Type) where
  | AcceptNone
  | AcceptAll
  | One (a : L)
  | Two (a b : L)
  | Three (a b c : L)
  | Four (a b c d : L)
  | Five (a b c d e : L)
  | Many (labels : List L)
  deriving DecidableEq

/-- Embeds `LabelFilter::accepts` (src/instruments/mod.rs): membership by value
equality; the `Many` arm uses `Vec::contains`. -/
def LabelFilter.accepts {L : Type} [DecidableEq L] : LabelFilter L → L → Bool
  | .AcceptNone, _ => false
  | .AcceptAll, _ => true
  | .One a, label => decide (label = a)
  | .Two a b, label => decide (label = a) || decide (label = b)
  | .Three a b c, label => decide (label = a) || decide (label = b) || decide (label = c)
  | .Four a b c d, label =>
    decide (label = a) || decide (label = b) || decide (label = c) || decide (label = d)
  | .Five a b c d e, label =>
    decide (label = a) || decide (label = b) || decide (label = c) || decide (label = d) ||
      decide (label = e)
  | .Many many, label => decide (label ∈ many)

/-- Embeds `LabelFilter::add_label` (src/instruments/mod.rs): grows the stored set,
promoting `Five` to `Many` on the sixth addition; `Vec::push` is modelled by
appending. -/
def LabelFilter.add_label {L : Type} : LabelFilter L → L → LabelFilter L
  | .AcceptAll, _ => .AcceptAll
  | .AcceptNone, label => .One label
  | .One a, label => .Two a label
  | .Two a b, label => .Three a b label
  | .Three a b c, label => .Four a b c label
  | .Four a b c d, label => .Five a b c d label
  | .Five a b c d e, label => .Many [a, b, c, d, e, label]
  | .Many labels, label => .Many (labels ++ [label])

/-- The filter built by a sequence of `add_label` calls starting from the
accept-none state. -/
def LabelFilter.added {L : Type} (ls : List L) : LabelFilter L :=
  ls.foldl LabelFilter.add_label .AcceptNone

/-- Discriminator for the generic unordered collection state `Many`. -/
def LabelFilter.is_many {L : Type} : LabelFilter L → Bool
  | .Many _ => true
  | _ => false

/-- Verification measure (not from the source): how many of the six label
slots a filter state occupies; the fixed-arity states occupy at most five. -/
def LabelFilter.slots_used {L : Type} : LabelFilter L → Nat
  | .AcceptNone => 0
  | .AcceptAll => 0
  | .One _ => 1
  | .Two _ _ => 2
  | .Three _ _ _ => 3
  | .Four _ _ _ _ => 4
  | .Five _ _ _ _ _ => 5
  | .Many _ => 6

/-- Modelled from the spec: a snapshot value (snapshot.rs is not among the
provided sources) — value is one of number, boolean, string, or nested
snapshot; only the shapes the routing layer emits are modelled. -/
inductive ItemKind where
  | Boolean (b : Bool)
  | Text (t : String)
  | Snapshot (items : List (String × ItemKind))

/-- One ordered (name, value) snapshot entry; `Vec::push` on the snapshot's
item vector is modelled by each emitter returning the list of entries it
appends, in emission order. -/
abbrev SnapItem := String × ItemKind

/-- Modelled from the spec: `util::put_default_descriptives` (util.rs is not
among the provided sources) emits the optional title and description only
when the snapshot is requested in descriptive mode. -/
def putDefaultDescriptives (title description : Option String) (descriptive : Bool) :
    List SnapItem :=
  if descriptive then
    (title.toList.map fun t => ("_title", ItemKind.Text t)) ++
      (description.toList.map fun d => ("_description", ItemKind.Text d))
  else []

/-- Modelled from the spec: the generic observation handler capability
(`Box<dyn HandlesObservations>`, and the instrument adapters whose source
instrument_adapter.rs is not provided) — an abstract state machine exposing
`handle_observation` (returning the new internal state and the number of
instruments updated) and a snapshot contribution determined by its state. -/
structure HandlesObs (L : Type) where
  state : Nat
  handleObs : Nat → Observation L → Nat × Nat
  snapshotItems : Nat → Bool → List SnapItem

/-- Modelled from the spec: the pure snapshot contributor capability
(`Box<dyn PutsSnapshot>`). -/
structure Snapshooter where
  snapshotItems : Bool → List SnapItem

/-- One `handle_observation` call on a boxed handler or adapter. -/
def stepHandler {L : Type} (h : HandlesObs L) (obs : Observation L) : HandlesObs L × Nat :=
  let r := h.handleObs h.state obs
  ({ h with state := r.1 }, r.2)

/-- Dispatch to an optional instrument slot (`Option::iter_mut` in the
source: absent slots contribute nothing). -/
def stepSlot {L : Type} : Option (HandlesObs L) → Observation L → Option (HandlesObs L) × Nat
  | none, _ => (none, 0)
  | some h, obs =>
    let r := stepHandler h obs
    (some r.1, r.2)

/-- Dispatch to every handler in order, summing the reported counts. -/
def stepHandlerList {L : Type} :
    List (HandlesObs L) → Observation L → List (HandlesObs L) × Nat
  | [], _ => ([], 0)
  | h :: rest, obs =>
    let r := stepHandler h obs
    let rr := stepHandlerList rest obs
    (r.1 :: rr.1, r.2 + rr.2)

/-- Snapshot contribution of an optional instrument slot. -/
def slotItems {L : Type} (s : Option (HandlesObs L)) (descriptive : Bool) : List SnapItem :=
  match s with
  | none => []
  | some h => h.snapshotItems h.state descriptive

/-- Snapshot contribution of a handler list, in order. -/
def handlerItems {L : Type} : List (HandlesObs L) → Bool → List SnapItem
  | [], _ => []
  | h :: rest, descriptive => h.snapshotItems h.state descriptive ++ handlerItems rest descriptive

/-- Snapshot contribution of a snapshooter list, in order. -/
def snapshooterItems : List Snapshooter → Bool → List SnapItem
  | [], _ => []
  | s :: rest, descriptive => s.snapshotItems descriptive ++ snapshooterItems rest descriptive

/-- The non-recursive fields of `Panel<L>` (src/instruments/panel.rs); the
recursive child panel list lives in the `Panel` inductive below. -/
structure PanelData (L : Type) where
  label_filter : LabelFilter L
  name : Option String
  title : Option String
  description : Option String
  counter : Option (HandlesObs L)
  gauge : Option (HandlesObs L)
  meter : Option (HandlesObs L)
  histogram : Option (HandlesObs L)
  handlers : List (HandlesObs L)
  snapshooters : List Snapshooter
  last_update : Instant
  max_inactivity_duration : Option Duration

/-- Embeds `Panel<L>` (src/instruments/panel.rs): the routing node; Lean structures
cannot be recursive, so the child panel vector is a separate component. -/
inductive Panel (L : Type) where
  | mk (data : PanelData L) (panels : List (Panel L))

/-- The non-recursive fields of a panel. -/
def Panel.data {L : Type} : Panel L → PanelData L
  | .mk d _ => d

/-- The child panels of a panel (field `panels` in the source). -/
def Panel.panels {L : Type} : Panel L → List (Panel L)
  | .mk _ ps => ps

/-- Embeds `Panel::accepts_label` (src/instruments/panel.rs): delegates to the
internal label filter. -/
def Panel.accepts_label {L : Type} [DecidableEq L] (p : Panel L) (label : L) : Bool :=
  p.data.label_filter.accepts label

/-- Embeds `Panel::add_handler` (src/instruments/panel.rs): pushes onto the generic
handler list. -/
def Panel.add_handler {L : Type} (p : Panel L) (handler : HandlesObs L) : Panel L :=
  .mk { p.data with handlers := p.data.handlers ++ [handler] } p.panels

/-- Embeds `Panel::add_counter` (src/instruments/panel.rs): fills the counter slot
if empty, otherwise demotes the new instrument to a generic handler. -/
def Panel.add_counter {L : Type} (p : Panel L) (counter : HandlesObs L) : Panel L :=
  if p.data.counter.isNone then .mk { p.data with counter := some counter } p.panels
  else p.add_handler counter

/-- Embeds `Panel::add_gauge` (src/instruments/panel.rs). -/
def Panel.add_gauge {L : Type} (p : Panel L) (gauge : HandlesObs L) : Panel L :=
  if p.data.gauge.isNone then .mk { p.data with gauge := some gauge } p.panels
  else p.add_handler gauge

/-- Embeds `Panel::add_meter` (src/instruments/panel.rs). -/
def Panel.add_meter {L : Type} (p : Panel L) (meter : HandlesObs L) : Panel L :=
  if p.data.meter.isNone then .mk { p.data with meter := some meter } p.panels
  else p.add_handler meter

/-- Embeds `Panel::add_histogram` (src/instruments/panel.rs). -/
def Panel.add_histogram {L : Type} (p : Panel L) (histogram : HandlesObs L) : Panel L :=
  if p.data.histogram.isNone then .mk { p.data with histogram := some histogram } p.panels
  else p.add_handler histogram

/-- Embeds `Panel::add_panel` (src/instruments/panel.rs): pushes a child panel. -/
def Panel.add_panel {L : Type} (p : Panel L) (child : Panel L) : Panel L :=
  .mk p.data (p.panels ++ [child])

mutual

/-- Embeds `Panel::handle_observation` (src/instruments/panel.rs): reject early when
the filter does not accept the label; otherwise dispatch to counter, gauge,
meter, histogram, child panels and generic handlers, in that order, summing
the instruments-updated counts.  The source does not touch `last_update`. -/
def Panel.handle_observation {L : Type} [DecidableEq L] :
    Panel L → Observation L → Panel L × Nat
  | .mk d ps, obs =>
    if !(d.label_filter.accepts obs.label) then (.mk d ps, 0)
    else
      let rc := stepSlot d.counter obs
      let rg := stepSlot d.gauge obs
      let rm := stepSlot d.meter obs
      let rh := stepSlot d.histogram obs
      let rps := Panel.handle_observation_list ps obs
      let rhl := stepHandlerList d.handlers obs
      let d2 : PanelData L :=
        { d with
          counter := rc.1
          gauge := rg.1
          meter := rm.1
          histogram := rh.1
          handlers := rhl.1 }
      (.mk d2 rps.1, rc.2 + rg.2 + rm.2 + rh.2 + rps.2 + rhl.2)

/-- Dispatch of one observation to a list of child panels, in order. -/
def Panel.handle_observation_list {L : Type} [DecidableEq L] :
    List (Panel L) → Observation L → List (Panel L) × Nat
  | [], _ => ([], 0)
  | p :: rest, obs =>
    let r := Panel.handle_observation p obs
    let rr := Panel.handle_observation_list rest obs
    (r.1 :: rr.1, r.2 + rr.2)

end

/-- The section of `Panel::put_values_into_snapshot` after the inactivity
gate (src/instruments/panel.rs): counter, gauge, meter, histogram, child
panels, snapshooters and handlers, in that order; the child panel items are
passed in already rendered. -/
def panelContentOf {L : Type} (d : PanelData L) (childItems : List SnapItem)
    (descriptive : Bool) : List SnapItem :=
  slotItems d.counter descriptive ++ slotItems d.gauge descriptive ++
    slotItems d.meter descriptive ++ slotItems d.histogram descriptive ++
    childItems ++ snapshooterItems d.snapshooters descriptive ++
    handlerItems d.handlers descriptive

mutual

/-- Embeds `Panel::put_values_into_snapshot` (src/instruments/panel.rs): descriptives
first, then — when an inactivity limit is configured — the liveness flags,
with an early return (nothing else rendered) while inactive; when no limit is
configured no flags are emitted at all.  `last_update.elapsed() > d` is
modelled as `now - last_update > d`. -/
def Panel.put_values_into_snapshot {L : Type} (p : Panel L) (now : Instant)
    (descriptive : Bool) : List SnapItem :=
  match p with
  | .mk d ps =>
    putDefaultDescriptives d.title d.description descriptive ++
      match d.max_inactivity_duration with
      | some dur =>
        if now - d.last_update > dur then
          [("_inactive", ItemKind.Boolean true), ("_active", ItemKind.Boolean false)]
        else
          [("_inactive", ItemKind.Boolean false), ("_active", ItemKind.Boolean true)] ++
            panelContentOf d (Panel.put_snapshot_list ps now descriptive) descriptive
      | none => panelContentOf d (Panel.put_snapshot_list ps now descriptive) descriptive

/-- Rendering of a list of panels via `Panel::put_snapshot`
(src/instruments/panel.rs): a named panel opens a nested snapshot under its
name, an unnamed one writes directly into the caller's snapshot. -/
def Panel.put_snapshot_list {L : Type} : List (Panel L) → Instant → Bool → List SnapItem
  | [], _, _ => []
  | p :: rest, now, descriptive =>
    (match p.data.name with
      | some nm => [(nm, ItemKind.Snapshot (Panel.put_values_into_snapshot p now descriptive))]
      | none => Panel.put_values_into_snapshot p now descriptive) ++
      Panel.put_snapshot_list rest now descriptive

end

/-- Embeds `Panel::put_snapshot` (src/instruments/panel.rs) for a single panel. -/
def Panel.put_snapshot {L : Type} (p : Panel L) (now : Instant) (descriptive : Bool) :
    List SnapItem :=
  match p.data.name with
  | some nm => [(nm, ItemKind.Snapshot (p.put_values_into_snapshot now descriptive))]
  | none => p.put_values_into_snapshot now descriptive

/-- Modelled from the spec: `Cockpit<L>` (cockpit.rs is not among the provided
sources) — "a named grouping of panels" with the same shape and role as a
panel: it owns an ordered panel list, supports `get_name` / `add_panel`,
dispatches observations to every owned panel, and renders its panels under
optional name nesting. -/
structure Cockpit (L : Type) where
  name : Option String
  panels : List (Panel L)

/-- Modelled from the spec: `Cockpit::get_name`. -/
def Cockpit.get_name {L : Type} (c : Cockpit L) : Option String :=
  c.name

/-- Modelled from the spec: `Cockpit::add_panel` pushes onto the owned panel
list. -/
def Cockpit.add_panel {L : Type} (c : Cockpit L) (p : Panel L) : Cockpit L :=
  { c with panels := c.panels ++ [p] }

/-- Modelled from the spec: `Cockpit::handle_observation` dispatches the
observation to every owned panel, summing the instruments-updated counts. -/
def Cockpit.handle_observation {L : Type} [DecidableEq L] (c : Cockpit L)
    (obs : Observation L) : Cockpit L × Nat :=
  let r := Panel.handle_observation_list c.panels obs
  ({ c with panels := r.1 }, r.2)

/-- Modelled from the spec: `Cockpit::put_snapshot` renders the owned panels,
nested under the cockpit's name when one is set. -/
def Cockpit.put_snapshot {L : Type} (c : Cockpit L) (now : Instant) (descriptive : Bool) :
    List SnapItem :=
  match c.name with
  | some nm => [(nm, ItemKind.Snapshot (Panel.put_snapshot_list c.panels now descriptive))]
  | none => Panel.put_snapshot_list c.panels now descriptive

/-- Snapshot contribution of a cockpit list, in order. -/
def cockpitItems {L : Type} : List (Cockpit L) → Instant → Bool → List SnapItem
  | [], _, _ => []
  | c :: rest, now, descriptive => c.put_snapshot now descriptive ++ cockpitItems rest now descriptive

/-- Dispatch of one observation to every cockpit, in order
(the cockpit loop of `TelemetryProcessor::process`, src/processor.rs). -/
def dispatchCockpits {L : Type} [DecidableEq L] :
    List (Cockpit L) → Observation L → List (Cockpit L) × Nat
  | [], _ => ([], 0)
  | c :: rest, obs =>
    let r := Cockpit.handle_observation c obs
    let rr := dispatchCockpits rest obs
    (r.1 :: rr.1, r.2 + rr.2)

/-- Embeds `ProcessingOutcome` (src/processor.rs). -/
structure ProcessingOutcome where
  processed : Nat
  dropped : Nat
  instruments_updated : Nat
  deriving DecidableEq

/-- Embeds `impl Default for ProcessingOutcome` (src/processor.rs): all counters
zero. -/
def ProcessingOutcome.default : ProcessingOutcome :=
  ⟨0, 0, 0⟩

/-- Embeds `ProcessingOutcome::combine_with` (src/processor.rs): elementwise sum. -/
def ProcessingOutcome.combine_with (a b : ProcessingOutcome) : ProcessingOutcome :=
  ⟨a.processed + b.processed, a.dropped + b.dropped,
    a.instruments_updated + b.instruments_updated⟩

/-- Embeds `ProcessingOutcome::something_happened` (src/processor.rs). -/
def ProcessingOutcome.something_happened (o : ProcessingOutcome) : Bool :=
  decide (0 < o.processed) || decide (0 < o.dropped)

/-- Embeds `ProcessingStrategy` (src/processor.rs). -/
inductive ProcessingStrategy where
  | ProcessAll
  | DropAll
  | DropOlderThan (max_age : Duration)
  deriving DecidableEq

/-- Embeds `ProcessingDecider` (src/processor.rs). -/
inductive ProcessingDecider where
  | ProcessAll
  | DropAll
  | DropBeforeDeadline (deadline : Instant)
  deriving DecidableEq

/-- Embeds `ProcessingStrategy::decider` (src/processor.rs): `Instant::now()` at the
moment the decider is built — the start of the `process` call — is passed
explicitly as `now`; the deadline `now - max_age` is computed here, once. -/
def ProcessingStrategy.decider (s : ProcessingStrategy) (now : Instant) : ProcessingDecider :=
  match s with
  | .ProcessAll => .ProcessAll
  | .DropAll => .DropAll
  | .DropOlderThan max_age => .DropBeforeDeadline (now - max_age)

/-- Embeds `ProcessingDecider::should_be_processed` (src/processor.rs): admit iff
the observation's timestamp is strictly greater than the drop deadline. -/
def ProcessingDecider.should_be_processed {L : Type} (d : ProcessingDecider)
    (observation : Observation L) : Bool :=
  match d with
  | .ProcessAll => true
  | .DropAll => false
  | .DropBeforeDeadline drop_deadline => decide (observation.timestamp > drop_deadline)

/-- Embeds `TelemetryMessage<L>` (src/processor.rs). -/
inductive TelemetryMessage (L : Type) where
  | Observation (obs : Observation L)
  | AddCockpit (cockpit : Cockpit L)
  | AddHandler (handler : HandlesObs L)
  | AddPanel (cockpit_name : String) (panel : Panel L)

/-- One result of `Receiver::try_recv` on the crossbeam channel: a message,
a transiently empty channel, or permanent disconnection. -/
inductive TryRecvResult (L : Type) where
  | Ok (msg : TelemetryMessage L)
  | Empty
  | Disconnected

/-- The channel receiver is modelled as the list of successive `try_recv`
results this `process` call would see; an exhausted list behaves as a
channel that stays empty. -/
def try_recv {L : Type} : List (TryRecvResult L) → TryRecvResult L × List (TryRecvResult L)
  | [] => (.Empty, [])
  | r :: rest => (r, rest)

/-- Embeds `TelemetryProcessor<L>` (src/processor.rs); the channel receiver is kept
outside the structure and threaded through `process` explicitly. -/
structure TelemetryProcessor (L : Type) where
  name : Option String
  title : Option String
  description : Option String
  cockpits : List (Cockpit L)
  handlers : List (HandlesObs L)
  snapshooters : List Snapshooter
  last_activity_at : Instant
  max_inactivity_duration : Option Duration
  is_disconnected : Bool

/-- Embeds `TelemetryProcessor::add_cockpit` (src/processor.rs). -/
def TelemetryProcessor.add_cockpit {L : Type} (p : TelemetryProcessor L) (c : Cockpit L) :
    TelemetryProcessor L :=
  { p with cockpits := p.cockpits ++ [c] }

/-- The `AddPanel` branch of `TelemetryProcessor::process` (src/processor.rs):
add the panel to the first cockpit whose name matches, leaving the list
unchanged when no name matches. -/
def addPanelToCockpits {L : Type} :
    List (Cockpit L) → String → Panel L → List (Cockpit L)
  | [], _, _ => []
  | c :: rest, cockpit_name, panel =>
    if c.get_name = some cockpit_name then c.add_panel panel :: rest
    else c :: addPanelToCockpits rest cockpit_name panel

/-- The mutable locals of the `process` drain loop (src/processor.rs):
the cockpit and handler lists (mutated in place in Rust), the three counters,
and the disconnection flag. -/
structure DrainState (L : Type) where
  cockpits : List (Cockpit L)
  handlers : List (HandlesObs L)
  processed : Nat
  dropped : Nat
  instruments_updated : Nat
  is_disconnected : Bool

/-- The `while num_received < max` drain loop of `TelemetryProcessor::process`
(src/processor.rs), by recursion on the remaining budget: each iteration
consumes one `try_recv` result; `Empty` consumes budget without effect;
`Disconnected` sets the sticky flag and stops the loop. -/
def drainLoop {L : Type} [DecidableEq L] (decider : ProcessingDecider) :
    Nat → List (TryRecvResult L) → DrainState L → DrainState L × List (TryRecvResult L)
  | 0, queue, st => (st, queue)
  | n + 1, queue, st =>
    let r := try_recv queue
    match r.1 with
    | .Ok (.Observation obs) =>
      if decider.should_be_processed obs then
        let rc := dispatchCockpits st.cockpits obs
        let rh := stepHandlerList st.handlers obs
        drainLoop decider n r.2
          { st with
            cockpits := rc.1
            handlers := rh.1
            instruments_updated := st.instruments_updated + rc.2 + rh.2
            processed := st.processed + 1 }
      else
        drainLoop decider n r.2 { st with dropped := st.dropped + 1 }
    | .Ok (.AddCockpit c) =>
      drainLoop decider n r.2
        { st with cockpits := st.cockpits ++ [c], processed := st.processed + 1 }
    | .Ok (.AddHandler h) =>
      drainLoop decider n r.2
        { st with handlers := st.handlers ++ [h], processed := st.processed + 1 }
    | .Ok (.AddPanel cockpit_name panel) =>
      drainLoop decider n r.2
        { st with
          cockpits := addPanelToCockpits st.cockpits cockpit_name panel
          processed := st.processed + 1 }
    | .Empty => drainLoop decider n r.2 st
    | .Disconnected => ({ st with is_disconnected := true }, r.2)

/-- Embeds `TelemetryProcessor::process` (src/processor.rs): return the zeroed
outcome at once when already disconnected; otherwise build the decider once
from the call's start time, drain up to `max` receives, and update
`last_activity_at` when something happened.  The remaining channel contents
are returned alongside the new processor state and the outcome. -/
def TelemetryProcessor.process {L : Type} [DecidableEq L] (p : TelemetryProcessor L)
    (queue : List (TryRecvResult L)) (now : Instant) (max : Nat)
    (strategy : ProcessingStrategy) :
    TelemetryProcessor L × List (TryRecvResult L) × ProcessingOutcome :=
  if p.is_disconnected then (p, queue, ProcessingOutcome.default)
  else
    let decider := strategy.decider now
    let r := drainLoop decider max queue
      ⟨p.cockpits, p.handlers, 0, 0, 0, false⟩
    let st := r.1
    let outcome : ProcessingOutcome := ⟨st.processed, st.dropped, st.instruments_updated⟩
    let p2 : TelemetryProcessor L :=
      { p with
        cockpits := st.cockpits
        handlers := st.handlers
        is_disconnected := st.is_disconnected
        last_activity_at := if outcome.something_happened then now else p.last_activity_at }
    (p2, r.2, outcome)

/-- The section of `TelemetryProcessor::put_values_into_snapshot` after the
inactivity gate (src/processor.rs): cockpits, handlers, snapshooters, in that
order. -/
def TelemetryProcessor.content_items {L : Type} (p : TelemetryProcessor L) (now : Instant)
    (descriptive : Bool) : List SnapItem :=
  cockpitItems p.cockpits now descriptive ++ handlerItems p.handlers descriptive ++
    snapshooterItems p.snapshooters descriptive

/-- Embeds `TelemetryProcessor::put_values_into_snapshot` (src/processor.rs):
descriptives first, then — when an inactivity limit is configured — the
liveness flags, with an early return while inactive; when no limit is
configured no flags are emitted at all. -/
def TelemetryProcessor.put_values_into_snapshot {L : Type} (p : TelemetryProcessor L)
    (now : Instant) (descriptive : Bool) : List SnapItem :=
  putDefaultDescriptives p.title p.description descriptive ++
    match p.max_inactivity_duration with
    | some dur =>
      if now - p.last_activity_at > dur then
        [("_inactive", ItemKind.Boolean true), ("_active", ItemKind.Boolean false)]
      else
        [("_inactive", ItemKind.Boolean false), ("_active", ItemKind.Boolean true)] ++
          p.content_items now descriptive
    | none => p.content_items now descriptive

/-- Modelled from the spec: a boxed `dyn ProcessesTelemetryMessages` owned by
a `ProcessorMount`, at its interface boundary; only its snapshot contribution
is relevant to the claims below. -/
structure DynProcessor where
  snapshotItems : Bool → List SnapItem

/-- Snapshot contribution of the owned processors of a mount, in order. -/
def dynProcessorItems : List DynProcessor → Bool → List SnapItem
  | [], _ => []
  | p :: rest, descriptive => p.snapshotItems descriptive ++ dynProcessorItems rest descriptive

/-- Embeds `ProcessorMount` (src/processor.rs). -/
structure ProcessorMount where
  name : Option String
  title : Option String
  description : Option String
  processors : List DynProcessor
  snapshooters : List Snapshooter
  last_activity_at : Instant
  max_inactivity_duration : Option Duration

/-- The section of `ProcessorMount::put_values_into_snapshot` after the
inactivity gate (src/processor.rs): processors then snapshooters. -/
def ProcessorMount.content_items (m : ProcessorMount) (descriptive : Bool) : List SnapItem :=
  dynProcessorItems m.processors descriptive ++ snapshooterItems m.snapshooters descriptive

/-- Embeds `ProcessorMount::put_values_into_snapshot` (src/processor.rs): same gate
structure as the processor's. -/
def ProcessorMount.put_values_into_snapshot (m : ProcessorMount) (now : Instant)
    (descriptive : Bool) : List SnapItem :=
  putDefaultDescriptives m.title m.description descriptive ++
    match m.max_inactivity_duration with
    | some dur =>
      if now - m.last_activity_at > dur then
        [("_inactive", ItemKind.Boolean true), ("_active", ItemKind.Boolean false)]
      else
        [("_inactive", ItemKind.Boolean false), ("_active", ItemKind.Boolean true)] ++
          m.content_items descriptive
    | none => m.content_items descriptive

/-- True on the two liveness flag names emitted by the inactivity gates. -/
def isFlagName (s : String) : Bool :=
  s == "_inactive" || s == "_active"

/-- Whether a snapshot item list contains a liveness flag entry at its own
level (nested snapshots are not searched: flags inside a named child belong
to that child's snapshot). -/
def hasFlag (items : List SnapItem) : Bool :=
  items.any fun it => isFlagName it.1

/-- Wraps an observation as a successfully received channel message. -/
def wrapObs {L : Type} (obs : Observation L) : TryRecvResult L :=
  .Ok (.Observation obs)

/-- The admitted-observation step of the drain loop (src/processor.rs):
dispatch to every cockpit then every handler, add the reported counts to
`instruments_updated`, and count the message as processed. -/
def obsStep {L : Type} [DecidableEq L] (st : DrainState L) (obs : Observation L) :
    DrainState L :=
  let rc := dispatchCockpits st.cockpits obs
  let rh := stepHandlerList st.handlers obs
  { st with
    cockpits := rc.1
    handlers := rh.1
    instruments_updated := st.instruments_updated + rc.2 + rh.2
    processed := st.processed + 1 }

/-- The effect of draining a batch of observation messages: each observation
is either admitted (dispatched via `obsStep`) or merely counted as dropped,
as the decider rules. -/
def obsFold {L : Type} [DecidableEq L] (decider : ProcessingDecider)
    (l : List (Observation L)) (st : DrainState L) : DrainState L :=
  l.foldl
    (fun st obs =>
      if decider.should_be_processed obs then obsStep st obs
      else { st with dropped := st.dropped + 1 })
    st

/-- One full dispatch of an observation over a cockpit list, a handler list
and a running instruments-updated total. -/
def dispatchStep {L : Type} [DecidableEq L]
    (s : List (Cockpit L) × List (HandlesObs L) × Nat) (obs : Observation L) :
    List (Cockpit L) × List (HandlesObs L) × Nat :=
  let rc := dispatchCockpits s.1 obs
  let rh := stepHandlerList s.2.1 obs
  (rc.1, rh.1, s.2.2 + rc.2 + rh.2)

/-- Concrete handler used by the witness theorems: counts how often it was
invoked, reporting one instrument updated per call. -/
def handler0 : HandlesObs Nat :=
  ⟨0, fun s _ => (s + 1, 1), fun _ _ => []⟩

/-- Concrete panel data used by the witness theorems: a panel filtering on
the single label 1, with every slot empty and no inactivity limit. -/
def panelData0 : PanelData Nat :=
  { label_filter := .One 1
    name := none
    title := none
    description := none
    counter := none
    gauge := none
    meter := none
    histogram := none
    handlers := []
    snapshooters := []
    last_update := 0
    max_inactivity_duration := none }

/-- Concrete panel filtering on label 1, used by the witness theorems. -/
def panel0 : Panel Nat :=
  .mk panelData0 []

/-- Concrete accept-all panel with every instrument slot filled. -/
def panel8 : Panel Nat :=
  .mk
    { panelData0 with
      label_filter := .AcceptAll
      counter := some handler0
      gauge := some handler0
      meter := some handler0
      histogram := some handler0 } []

/-- Concrete accept-all panel with an inactivity limit of 10 constructed at
time 0. -/
def panel3 : Panel Nat :=
  .mk { panelData0 with label_filter := .AcceptAll, max_inactivity_duration := some 10 } []

/-- Concrete connected processor with no cockpits, handlers or
snapshooters. -/
def emptyProc : TelemetryProcessor Nat :=
  ⟨some "p", none, none, [], [], [], 0, none, false⟩

/-- Concrete processor already marked disconnected. -/
def discProc : TelemetryProcessor Nat :=
  ⟨some "p", none, none, [], [], [], 0, none, true⟩

/-- Concrete processor with an inactivity limit of 5. -/
def proc10 : TelemetryProcessor Nat :=
  ⟨some "p", none, none, [], [], [], 0, some 5, false⟩

/-- Concrete mount without an inactivity limit. -/
def mount10 : ProcessorMount :=
  ⟨some "m", none, none, [], [], 0, none⟩

/-- Concrete named cockpit with no panels. -/
def cock0 : Cockpit Nat :=
  ⟨some "a", []⟩

lemma decide_or_eq {p q : Prop} [Decidable p] [Decidable q] :
    decide (p ∨ q) = (decide p || decide q) := by
  by_cases hp : p <;> by_cases hq : q <;> simp [hp, hq]

lemma LabelFilter.accepts_add_label {L : Type} [DecidableEq L] (f : LabelFilter L) (a l : L) :
    (f.add_label a).accepts l = (f.accepts l || decide (l = a)) := by
  cases f <;>
    simp [LabelFilter.add_label, LabelFilter.accepts, List.mem_append, List.mem_cons,
      decide_or_eq, Bool.or_assoc]

lemma LabelFilter.accepts_foldl {L : Type} [DecidableEq L] (ls : List L) (f : LabelFilter L)
    (l : L) :
    (ls.foldl LabelFilter.add_label f).accepts l = (f.accepts l || decide (l ∈ ls)) := by
  induction ls generalizing f with
  | nil => simp
  | cons a tl ih =>
    simp only [List.foldl_cons, ih, LabelFilter.accepts_add_label, List.mem_cons, decide_or_eq,
      Bool.or_assoc]

lemma LabelFilter.slots_used_add_label {L : Type} (f : LabelFilter L) (a : L) :
    (f.add_label a).slots_used ≤ f.slots_used + 1 := by
  cases f <;> simp [LabelFilter.add_label, LabelFilter.slots_used]

lemma LabelFilter.slots_used_foldl {L : Type} (ls : List L) (f : LabelFilter L) :
    (ls.foldl LabelFilter.add_label f).slots_used ≤ f.slots_used + ls.length := by
  induction ls generalizing f with
  | nil => simp
  | cons a tl ih =>
    calc ((a :: tl).foldl LabelFilter.add_label f).slots_used
        ≤ (f.add_label a).slots_used + tl.length := ih (f.add_label a)
      _ ≤ f.slots_used + (a :: tl).length := by
          have := LabelFilter.slots_used_add_label f a
          simp only [List.length_cons]
          omega

lemma LabelFilter.is_many_iff_slots {L : Type} (f : LabelFilter L) :
    f.is_many = true ↔ f.slots_used = 6 := by
  cases f <;> simp [LabelFilter.is_many, LabelFilter.slots_used]

lemma drainLoop_nil {L : Type} [DecidableEq L] (decider : ProcessingDecider) :
    ∀ (n : Nat) (st : DrainState L), drainLoop decider n [] st = (st, []) := by
  intro n
  induction n with
  | zero => intro st; rfl
  | succ m ih => intro st; simpa [drainLoop, try_recv] using ih st

lemma drainLoop_obs {L : Type} [DecidableEq L] (decider : ProcessingDecider) :
    ∀ (l : List (Observation L)) (n : Nat) (st : DrainState L), l.length ≤ n →
      drainLoop decider n (l.map wrapObs) st = (obsFold decider l st, []) := by
  intro l
  induction l with
  | nil => intro n st _; simpa [obsFold] using drainLoop_nil decider n st
  | cons o tl ih =>
    intro n st hle
    match n with
    | m + 1 =>
      have htl : tl.length ≤ m := by simpa using hle
      simp only [List.map_cons, drainLoop, try_recv, wrapObs, obsFold, List.foldl_cons]
      split
      · simpa [obsFold, obsStep] using ih m _ htl
      · simpa [obsFold] using ih m _ htl

lemma obsFold_processed {L : Type} [DecidableEq L] (decider : ProcessingDecider) :
    ∀ (l : List (Observation L)) (st : DrainState L),
      (obsFold decider l st).processed =
        st.processed + (l.filter fun o => decider.should_be_processed o).length := by
  intro l
  induction l with
  | nil => intro st; simp [obsFold]
  | cons o tl ih =>
    intro st
    simp only [obsFold, List.foldl_cons, List.filter_cons]
    by_cases h : decider.should_be_processed o = true
    · simpa [obsFold, h, obsStep, Nat.add_comm, Nat.add_assoc, Nat.add_left_comm] using
        ih (obsStep st o)
    · simpa [obsFold, h] using ih { st with dropped := st.dropped + 1 }

lemma obsFold_dropped {L : Type} [DecidableEq L] (decider : ProcessingDecider) :
    ∀ (l : List (Observation L)) (st : DrainState L),
      (obsFold decider l st).dropped =
        st.dropped + (l.filter fun o => !decider.should_be_processed o).length := by
  intro l
  induction l with
  | nil => intro st; simp [obsFold]
  | cons o tl ih =>
    intro st
    simp only [obsFold, List.foldl_cons, List.filter_cons]
    by_cases h : decider.should_be_processed o = true
    · simpa [obsFold, h, obsStep] using ih (obsStep st o)
    · simpa [obsFold, h, Nat.add_comm, Nat.add_assoc, Nat.add_left_comm] using
        ih { st with dropped := st.dropped + 1 }

lemma obsFold_dispatch {L : Type} [DecidableEq L] (decider : ProcessingDecider) :
    ∀ (l : List (Observation L)) (st : DrainState L),
      ((obsFold decider l st).cockpits, (obsFold decider l st).handlers,
          (obsFold decider l st).instruments_updated) =
        (l.filter fun o => decider.should_be_processed o).foldl dispatchStep
          (st.cockpits, st.handlers, st.instruments_updated) := by
  intro l
  induction l with
  | nil => intro st; simp [obsFold]
  | cons o tl ih =>
    intro st
    simp only [obsFold, List.foldl_cons, List.filter_cons]
    by_cases h : decider.should_be_processed o = true
    · simpa [obsFold, h, obsStep, dispatchStep] using ih (obsStep st o)
    · simpa [obsFold, h] using ih { st with dropped := st.dropped + 1 }

lemma stepHandlerList_append {L : Type} (xs ys : List (HandlesObs L)) (obs : Observation L) :
    stepHandlerList (xs ++ ys) obs =
      ((stepHandlerList xs obs).1 ++ (stepHandlerList ys obs).1,
        (stepHandlerList xs obs).2 + (stepHandlerList ys obs).2) := by
  induction xs with
  | nil => simp [stepHandlerList]
  | cons x tl ih => simp [stepHandlerList, ih, Nat.add_assoc]

lemma addPanelToCockpits_no_match {L : Type} (nm : String) (panel : Panel L) :
    ∀ cs : List (Cockpit L), (∀ c ∈ cs, c.get_name ≠ some nm) →
      addPanelToCockpits cs nm panel = cs := by
  intro cs
  induction cs with
  | nil => intro _; rfl
  | cons c tl ih =>
    intro h
    have hc : c.get_name ≠ some nm := h c (List.mem_cons_self c tl)
    simp only [addPanelToCockpits, if_neg hc]
    rw [ih fun x hx => h x (List.mem_cons_of_mem c hx)]

lemma hasFlag_append (a b : List SnapItem) : hasFlag (a ++ b) = (hasFlag a || hasFlag b) := by
  simp [hasFlag, List.any_append]

lemma hasFlag_putDefaultDescriptives (t d : Option String) (b : Bool) :
    hasFlag (putDefaultDescriptives t d b) = false := by
  cases b <;> cases t <;> cases d <;>
    simp [putDefaultDescriptives, hasFlag, isFlagName, List.any_cons]

/-- C4: for every label set built by `add_label` one label at a time starting
from the accept-none state — in particular every set of size 0 through 5 in
every addition order — `accepts` returns true exactly for the labels that
were added; the answer is a function of the added-label list alone, not of
the internal variant storing it. -/
theorem labelFilter_accepts_iff_added (ls : List Nat) (l : Nat) :
    (LabelFilter.added ls).accepts l = decide (l ∈ ls) := by
  simpa [LabelFilter.added, LabelFilter.accepts] using
    LabelFilter.accepts_foldl ls .AcceptNone l

/-- C5 counterexample: six `add_label` calls whose labels comprise a single
distinct value (so at most 5 distinct values) escalate the filter to the
generic `Many` state, because `add_label` never deduplicates. -/
theorem labelFilter_six_adds_one_distinct_escalates :
    (LabelFilter.added [0, 0, 0, 0, 0, 0] : LabelFilter Nat).is_many = true ∧
      ([0, 0, 0, 0, 0, 0] : List Nat).all (fun x => x == 0) = true := by
  exact ⟨rfl, rfl⟩

/-- C5 (amended): for every sequence of at most 5 `add_label` calls —
counting repeated labels — the filter stays in the fixed-arity states and
never escalates to `Many`; escalation happens only beyond 5 calls, not
beyond 5 distinct labels. -/
theorem labelFilter_at_most_five_adds_not_many (ls : List Nat) (hlen : ls.length ≤ 5) :
    (LabelFilter.added ls).is_many = false := by
  have hs : (LabelFilter.added ls).slots_used ≤ 5 := by
    have := LabelFilter.slots_used_foldl ls (.AcceptNone : LabelFilter Nat)
    simp only [LabelFilter.added, LabelFilter.slots_used] at this ⊢
    omega
  cases hm : (LabelFilter.added ls).is_many with
  | false => rfl
  | true =>
    have := (LabelFilter.is_many_iff_slots (LabelFilter.added ls)).mp hm
    omega

/-- Witness for the amended C5 theorem at the concrete list [1, 2, 3]. -/
theorem labelFilter_at_most_five_adds_not_many_witness :
    (LabelFilter.added [1, 2, 3] : LabelFilter Nat).is_many = false :=
  labelFilter_at_most_five_adds_not_many [1, 2, 3] (by decide)

/-- C7: the projection from an observation to its (label, update) pair is
total — each of the three observation variants maps to exactly one update
variant — preserving label, timestamp, count and value exactly; and the
consuming and the borrowing projections agree on both components for every
observation. -/
theorem observation_projection_total_preserving_equiv :
    (∀ (l c : Nat) (t : Instant),
      LabelAndUpdate.from_observation (.Observed l c t) = ⟨l, .Observations c t⟩) ∧
    (∀ (l : Nat) (t : Instant),
      LabelAndUpdate.from_observation (.ObservedOne l t) = ⟨l, .Observation t⟩) ∧
    (∀ (l : Nat) (v : ObservedValue) (t : Instant),
      LabelAndUpdate.from_observation (.ObservedOneValue l v t) =
        ⟨l, .ObservationWithValue v t⟩) ∧
    (∀ obs : Observation Nat,
      (LabelAndUpdate.from_observation obs).label =
          (BorrowedLabelAndUpdate.from_observation obs).label ∧
        (LabelAndUpdate.from_observation obs).update =
          (BorrowedLabelAndUpdate.from_observation obs).update) := by
  refine ⟨fun _ _ _ => rfl, fun _ _ => rfl, fun _ _ _ => rfl, fun obs => ?_⟩
  cases obs <;> exact ⟨rfl, rfl⟩

/-- C6: a panel whose filter rejects the observation's label returns 0 from
`handle_observation` and leaves the whole panel — instrument slots, child
panels and handlers — unchanged. -/
theorem panel_handle_observation_reject_noop (p : Panel Nat) (obs : Observation Nat)
    (hrej : p.accepts_label obs.label = false) :
    p.handle_observation obs = (p, 0) := by
  cases p with
  | mk d ps =>
    simp only [Panel.accepts_label, Panel.data] at hrej
    simp [Panel.handle_observation, hrej]

/-- Witness for C6: label 2 is rejected by a panel filtering on label 1. -/
theorem panel_handle_observation_reject_noop_witness :
    panel0.handle_observation (.ObservedOne 2 5) = (panel0, 0) :=
  panel_handle_observation_reject_noop panel0 (.ObservedOne 2 5) rfl

/-- C8: for each kind independently — a panel whose counter (respectively
gauge, meter, histogram) slot is already filled keeps that slot unchanged
when a second instrument of that kind is added; the newcomer is appended to
the generic handler list instead, the child panels are untouched, and the
demoted instrument still receives accepted observations, as the handler
section of `handle_observation` steps it exactly like any other handler. -/
theorem panel_add_second_instrument_demotes (p : Panel Nat)
    (c2 g2 m2 h2 : HandlesObs Nat) (obs : Observation Nat) :
    (p.data.counter.isSome = true →
      (p.add_counter c2).data.counter = p.data.counter ∧
      (p.add_counter c2).data.handlers = p.data.handlers ++ [c2] ∧
      (p.add_counter c2).panels = p.panels ∧
      ((p.add_counter c2).accepts_label obs.label = true →
        ((p.add_counter c2).handle_observation obs).1.data.handlers =
          (stepHandlerList p.data.handlers obs).1 ++ [(stepHandler c2 obs).1])) ∧
    (p.data.gauge.isSome = true →
      (p.add_gauge g2).data.gauge = p.data.gauge ∧
      (p.add_gauge g2).data.handlers = p.data.handlers ++ [g2] ∧
      (p.add_gauge g2).panels = p.panels ∧
      ((p.add_gauge g2).accepts_label obs.label = true →
        ((p.add_gauge g2).handle_observation obs).1.data.handlers =
          (stepHandlerList p.data.handlers obs).1 ++ [(stepHandler g2 obs).1])) ∧
    (p.data.meter.isSome = true →
      (p.add_meter m2).data.meter = p.data.meter ∧
      (p.add_meter m2).data.handlers = p.data.handlers ++ [m2] ∧
      (p.add_meter m2).panels = p.panels ∧
      ((p.add_meter m2).accepts_label obs.label = true →
        ((p.add_meter m2).handle_observation obs).1.data.handlers =
          (stepHandlerList p.data.handlers obs).1 ++ [(stepHandler m2 obs).1])) ∧
    (p.data.histogram.isSome = true →
      (p.add_histogram h2).data.histogram = p.data.histogram ∧
      (p.add_histogram h2).data.handlers = p.data.handlers ++ [h2] ∧
      (p.add_histogram h2).panels = p.panels ∧
      ((p.add_histogram h2).accepts_label obs.label = true →
        ((p.add_histogram h2).handle_observation obs).1.data.handlers =
          (stepHandlerList p.data.handlers obs).1 ++ [(stepHandler h2 obs).1])) := by
  cases p with
  | mk d ps =>
    refine ⟨?_, ?_, ?_, ?_⟩
    · intro hc
      simp only [Panel.data] at hc
      obtain ⟨cv, hcv⟩ := Option.isSome_iff_exists.mp hc
      refine ⟨?_, ?_, ?_, ?_⟩
      · simp [Panel.add_counter, Panel.add_handler, Panel.data, hcv]
      · simp [Panel.add_counter, Panel.add_handler, Panel.data, hcv]
      · simp [Panel.add_counter, Panel.add_handler, Panel.data, Panel.panels, hcv]
      · intro hacc
        simp only [Panel.add_counter, Panel.add_handler, Panel.accepts_label, Panel.data, hcv,
          Option.isNone_some, Bool.false_eq_true, if_false] at hacc ⊢
        simp [Panel.handle_observation, hacc, stepHandlerList_append, stepHandlerList,
          Panel.data]
    · intro hg
      simp only [Panel.data] at hg
      obtain ⟨gv, hgv⟩ := Option.isSome_iff_exists.mp hg
      refine ⟨?_, ?_, ?_, ?_⟩
      · simp [Panel.add_gauge, Panel.add_handler, Panel.data, hgv]
      · simp [Panel.add_gauge, Panel.add_handler, Panel.data, hgv]
      · simp [Panel.add_gauge, Panel.add_handler, Panel.data, Panel.panels, hgv]
      · intro hacc
        simp only [Panel.add_gauge, Panel.add_handler, Panel.accepts_label, Panel.data, hgv,
          Option.isNone_some, Bool.false_eq_true, if_false] at hacc ⊢
        simp [Panel.handle_observation, hacc, stepHandlerList_append, stepHandlerList,
          Panel.data]
    · intro hm
      simp only [Panel.data] at hm
      obtain ⟨mv, hmv⟩ := Option.isSome_iff_exists.mp hm
      refine ⟨?_, ?_, ?_, ?_⟩
      · simp [Panel.add_meter, Panel.add_handler, Panel.data, hmv]
      · simp [Panel.add_meter, Panel.add_handler, Panel.data, hmv]
      · simp [Panel.add_meter, Panel.add_handler, Panel.data, Panel.panels, hmv]
      · intro hacc
        simp only [Panel.add_meter, Panel.add_handler, Panel.accepts_label, Panel.data, hmv,
          Option.isNone_some, Bool.false_eq_true, if_false] at hacc ⊢
        simp [Panel.handle_observation, hacc, stepHandlerList_append, stepHandlerList,
          Panel.data]
    · intro hh
      simp only [Panel.data] at hh
      obtain ⟨hv, hhv⟩ := Option.isSome_iff_exists.mp hh
      refine ⟨?_, ?_, ?_, ?_⟩
      · simp [Panel.add_histogram, Panel.add_handler, Panel.data, hhv]
      · simp [Panel.add_histogram, Panel.add_handler, Panel.data, hhv]
      · simp [Panel.add_histogram, Panel.add_handler, Panel.data, Panel.panels, hhv]
      · intro hacc
        simp only [Panel.add_histogram, Panel.add_handler, Panel.accepts_label, Panel.data,
          hhv, Option.isNone_some, Bool.false_eq_true, if_false] at hacc ⊢
        simp [Panel.handle_observation, hacc, stepHandlerList_append, stepHandlerList,
          Panel.data]

/-- Witness for C8: an accept-all panel with every slot filled, adding the
counting handler a second time for each kind; every per-kind hypothesis and
every acceptance hypothesis is discharged, so all four demoted instruments
are shown stepped by a subsequent accepted observation. -/
theorem panel_add_second_instrument_demotes_witness :
    ((panel8.add_counter handler0).data.counter = panel8.data.counter ∧
      (panel8.add_counter handler0).data.handlers = panel8.data.handlers ++ [handler0] ∧
      (panel8.add_counter handler0).panels = panel8.panels ∧
      ((panel8.add_counter handler0).handle_observation (.ObservedOne 3 5)).1.data.handlers =
        (stepHandlerList panel8.data.handlers (.ObservedOne 3 5)).1 ++
          [(stepHandler handler0 (.ObservedOne 3 5)).1]) ∧
    ((panel8.add_gauge handler0).data.gauge = panel8.data.gauge ∧
      (panel8.add_gauge handler0).data.handlers = panel8.data.handlers ++ [handler0] ∧
      (panel8.add_gauge handler0).panels = panel8.panels ∧
      ((panel8.add_gauge handler0).handle_observation (.ObservedOne 3 5)).1.data.handlers =
        (stepHandlerList panel8.data.handlers (.ObservedOne 3 5)).1 ++
          [(stepHandler handler0 (.ObservedOne 3 5)).1]) ∧
    ((panel8.add_meter handler0).data.meter = panel8.data.meter ∧
      (panel8.add_meter handler0).data.handlers = panel8.data.handlers ++ [handler0] ∧
      (panel8.add_meter handler0).panels = panel8.panels ∧
      ((panel8.add_meter handler0).handle_observation (.ObservedOne 3 5)).1.data.handlers =
        (stepHandlerList panel8.data.handlers (.ObservedOne 3 5)).1 ++
          [(stepHandler handler0 (.ObservedOne 3 5)).1]) ∧
    ((panel8.add_histogram handler0).data.histogram = panel8.data.histogram ∧
      (panel8.add_histogram handler0).data.handlers = panel8.data.handlers ++ [handler0] ∧
      (panel8.add_histogram handler0).panels = panel8.panels ∧
      ((panel8.add_histogram handler0).handle_observation
            (.ObservedOne 3 5)).1.data.handlers =
        (stepHandlerList panel8.data.handlers (.ObservedOne 3 5)).1 ++
          [(stepHandler handler0 (.ObservedOne 3 5)).1]) := by
  have h := panel_add_second_instrument_demotes panel8 handler0 handler0 handler0 handler0
    (.ObservedOne 3 5)
  have hc := h.1 rfl
  have hg := h.2.1 rfl
  have hm := h.2.2.1 rfl
  have hh := h.2.2.2 rfl
  exact ⟨⟨hc.1, hc.2.1, hc.2.2.1, hc.2.2.2 rfl⟩, ⟨hg.1, hg.2.1, hg.2.2.1, hg.2.2.2 rfl⟩,
    ⟨hm.1, hm.2.1, hm.2.2.1, hm.2.2.2 rfl⟩, ⟨hh.1, hh.2.1, hh.2.2.1, hh.2.2.2 rfl⟩⟩

/-- C1: a `process` call under `DropOlderThan(max_age)` computes the single
admission cutoff `now - max_age` once, at the start of the call (the decider
is built before the drain loop and shared by the whole batch); every received
observation is admitted — dispatched to the cockpits and handlers and counted
in `processed` — exactly when its timestamp is strictly newer than that
cutoff, and otherwise is counted in `dropped` while the cockpit and handler
states evolve as if only the admitted observations were ever dispatched. -/
theorem telemetryProcessor_dropOlderThan_cutoff (p : TelemetryProcessor Nat)
    (obsList : List (Observation Nat)) (now max_age : Int) (max : Nat)
    (hconn : p.is_disconnected = false) (hbudget : obsList.length ≤ max) :
    (p.process (obsList.map wrapObs) now max (.DropOlderThan max_age)).2.2.processed =
        (obsList.filter fun o => decide (o.timestamp > now - max_age)).length ∧
      (p.process (obsList.map wrapObs) now max (.DropOlderThan max_age)).2.2.dropped =
        (obsList.filter fun o => !decide (o.timestamp > now - max_age)).length ∧
      ((p.process (obsList.map wrapObs) now max (.DropOlderThan max_age)).1.cockpits,
          (p.process (obsList.map wrapObs) now max (.DropOlderThan max_age)).1.handlers,
          (p.process (obsList.map wrapObs) now max
            (.DropOlderThan max_age)).2.2.instruments_updated) =
        (obsList.filter fun o => decide (o.timestamp > now - max_age)).foldl dispatchStep
          (p.cockpits, p.handlers, 0) := by
  have hkey := drainLoop_obs (ProcessingDecider.DropBeforeDeadline (now - max_age)) obsList max
    (⟨p.cockpits, p.handlers, 0, 0, 0, false⟩ : DrainState Nat) hbudget
  have hp := obsFold_processed (ProcessingDecider.DropBeforeDeadline (now - max_age)) obsList
    (⟨p.cockpits, p.handlers, 0, 0, 0, false⟩ : DrainState Nat)
  have hdr := obsFold_dropped (ProcessingDecider.DropBeforeDeadline (now - max_age)) obsList
    (⟨p.cockpits, p.handlers, 0, 0, 0, false⟩ : DrainState Nat)
  have hdisp := obsFold_dispatch (ProcessingDecider.DropBeforeDeadline (now - max_age)) obsList
    (⟨p.cockpits, p.handlers, 0, 0, 0, false⟩ : DrainState Nat)
  simp only [ProcessingDecider.should_be_processed] at hp hdr hdisp
  refine ⟨?_, ?_, ?_⟩ <;>
    simp only [TelemetryProcessor.process, hconn, Bool.false_eq_true, if_false,
      ProcessingStrategy.decider, hkey]
  · simpa using hp
  · simpa using hdr
  · simpa using hdisp

/-- Witness for C1: two observations at timestamps 100 and 10 against the
cutoff 100 - 50; the first is admitted, the second dropped. -/
theorem telemetryProcessor_dropOlderThan_cutoff_witness :
    (emptyProc.process ([.ObservedOne 0 100, .ObservedOne 0 10].map wrapObs) 100 5
        (.DropOlderThan 50)).2.2.processed =
      (([.ObservedOne 0 100, .ObservedOne 0 10] : List (Observation Nat)).filter
        fun o => decide (o.timestamp > 100 - 50)).length ∧
    (emptyProc.process ([.ObservedOne 0 100, .ObservedOne 0 10].map wrapObs) 100 5
        (.DropOlderThan 50)).2.2.dropped =
      (([.ObservedOne 0 100, .ObservedOne 0 10] : List (Observation Nat)).filter
        fun o => !decide (o.timestamp > 100 - 50)).length ∧
    ((emptyProc.process ([.ObservedOne 0 100, .ObservedOne 0 10].map wrapObs) 100 5
          (.DropOlderThan 50)).1.cockpits,
        (emptyProc.process ([.ObservedOne 0 100, .ObservedOne 0 10].map wrapObs) 100 5
          (.DropOlderThan 50)).1.handlers,
        (emptyProc.process ([.ObservedOne 0 100, .ObservedOne 0 10].map wrapObs) 100 5
          (.DropOlderThan 50)).2.2.instruments_updated) =
      (([.ObservedOne 0 100, .ObservedOne 0 10] : List (Observation Nat)).filter
          fun o => decide (o.timestamp > 100 - 50)).foldl dispatchStep
        (emptyProc.cockpits, emptyProc.handlers, 0) :=
  telemetryProcessor_dropOlderThan_cutoff emptyProc [.ObservedOne 0 100, .ObservedOne 0 10]
    100 50 5 rfl (by decide)

/-- C2: a processor whose sticky disconnected flag is set returns the zeroed
outcome immediately from every `process` call — for any budget and strategy —
without receiving anything and without changing any state (so the flag is
never cleared); and a processor that observes `Disconnected` sets the flag,
stops draining for the remainder of that call (the rest of the receiver's
contents is left untouched) and reports a zeroed outcome for the messages it
did not drain. -/
theorem telemetryProcessor_disconnected_sticky (p : TelemetryProcessor Nat)
    (queue extra : List (TryRecvResult Nat)) (now : Instant) (max : Nat)
    (strategy : ProcessingStrategy) :
    (p.is_disconnected = true →
      p.process queue now max strategy = (p, queue, ProcessingOutcome.default)) ∧
    (p.is_disconnected = false →
      p.process (.Disconnected :: extra) now (max + 1) strategy =
        ({ p with is_disconnected := true }, extra, ProcessingOutcome.default)) := by
  constructor
  · intro hdisc
    simp [TelemetryProcessor.process, hdisc]
  · intro hconn
    obtain ⟨nm, ti, de, cks, hds, sns, la, mid, disc⟩ := p
    simp only at hconn
    subst hconn
    simp [TelemetryProcessor.process, drainLoop, try_recv,
      ProcessingOutcome.something_happened, ProcessingOutcome.default]

/-- Witness for C2: the disconnected processor ignores a pending message; the
connected one hits `Disconnected` first and stops with the flag set. -/
theorem telemetryProcessor_disconnected_sticky_witness :
    discProc.process [wrapObs (.ObservedOne 0 1)] 5 3 .ProcessAll =
        (discProc, [wrapObs (.ObservedOne 0 1)], ProcessingOutcome.default) ∧
      emptyProc.process [.Disconnected, .Empty] 5 (2 + 1) .ProcessAll =
        ({ emptyProc with is_disconnected := true }, [.Empty], ProcessingOutcome.default) :=
  ⟨(telemetryProcessor_disconnected_sticky discProc [wrapObs (.ObservedOne 0 1)] [] 5 3
      .ProcessAll).1 rfl,
    (telemetryProcessor_disconnected_sticky emptyProc [] [.Empty] 5 2 .ProcessAll).2 rfl⟩

/-- C9: structural messages are applied immediately and counted in
`processed` for every strategy (including `DropAll`): an add-cockpit message
appends the cockpit, an add-handler message appends the handler, and an
add-panel message whose cockpit name matches no owned cockpit is silently
discarded — the cockpit list is unchanged — while still being counted in
`processed`; no error is surfaced (the outcome triple is the call's only
result).  The general add-panel conjunct shows the message applied
immediately through the exact-first-name-match update of the cockpit
list. -/
theorem process_structural_messages_processed (p : TelemetryProcessor Nat) (now : Instant)
    (max : Nat) (strategy : ProcessingStrategy) (c : Cockpit Nat) (hd : HandlesObs Nat)
    (nm : String) (pl : Panel Nat) (hconn : p.is_disconnected = false) :
    (p.process [.Ok (.AddCockpit c)] now (max + 1) strategy =
      ({ p with cockpits := p.cockpits ++ [c], last_activity_at := now }, [],
        ⟨1, 0, 0⟩)) ∧
    (p.process [.Ok (.AddHandler hd)] now (max + 1) strategy =
      ({ p with handlers := p.handlers ++ [hd], last_activity_at := now }, [],
        ⟨1, 0, 0⟩)) ∧
    (p.process [.Ok (.AddPanel nm pl)] now (max + 1) strategy =
      ({ p with cockpits := addPanelToCockpits p.cockpits nm pl, last_activity_at := now },
        [], ⟨1, 0, 0⟩)) ∧
    ((∀ ck ∈ p.cockpits, ck.get_name ≠ some nm) →
      p.process [.Ok (.AddPanel nm pl)] now (max + 1) strategy =
        ({ p with last_activity_at := now }, [], ⟨1, 0, 0⟩)) := by
  obtain ⟨pnm, ti, de, cks, hds, sns, la, mid, disc⟩ := p
  simp only at hconn
  subst hconn
  refine ⟨?_, ?_, ?_, ?_⟩
  · simp [TelemetryProcessor.process, drainLoop, try_recv, drainLoop_nil,
      ProcessingOutcome.something_happened]
  · simp [TelemetryProcessor.process, drainLoop, try_recv, drainLoop_nil,
      ProcessingOutcome.something_happened]
  · simp [TelemetryProcessor.process, drainLoop, try_recv, drainLoop_nil,
      ProcessingOutcome.something_happened]
  · intro hnone
    have hfix := addPanelToCockpits_no_match nm pl cks hnone
    simp [TelemetryProcessor.process, drainLoop, try_recv, drainLoop_nil,
      ProcessingOutcome.something_happened, hfix]

/-- Witness for C9 under `DropAll`, with an empty cockpit list (so the panel
message can match no cockpit name). -/
theorem process_structural_messages_processed_witness :
    (emptyProc.process [.Ok (.AddCockpit cock0)] 5 (0 + 1) .DropAll =
      ({ emptyProc with cockpits := emptyProc.cockpits ++ [cock0], last_activity_at := 5 },
        [], ⟨1, 0, 0⟩)) ∧
    (emptyProc.process [.Ok (.AddHandler handler0)] 5 (0 + 1) .DropAll =
      ({ emptyProc with handlers := emptyProc.handlers ++ [handler0], last_activity_at := 5 },
        [], ⟨1, 0, 0⟩)) ∧
    (emptyProc.process [.Ok (.AddPanel "missing" panel0)] 5 (0 + 1) .DropAll =
      ({ emptyProc with
          cockpits := addPanelToCockpits emptyProc.cockpits "missing" panel0
          last_activity_at := 5 },
        [], ⟨1, 0, 0⟩)) ∧
    (emptyProc.process [.Ok (.AddPanel "missing" panel0)] 5 (0 + 1) .DropAll =
      ({ emptyProc with last_activity_at := 5 }, [], ⟨1, 0, 0⟩)) := by
  have h := process_structural_messages_processed emptyProc 5 0 .DropAll cock0 handler0
    "missing" panel0 rfl
  exact ⟨h.1, h.2.1, h.2.2.1, h.2.2.2 (by intro ck hck; simp [emptyProc] at hck)⟩

/-- C3 (failing input): `Panel::handle_observation` never refreshes
`last_update`, so a panel with inactivity limit 10 constructed at time 0
still renders only the inactive flags at time 100 even though it accepted
and dispatched an observation at that very moment — the claimed revert on
fresh activity does not happen for panels.  By contrast the processor side
behaves as claimed: after processing a message at time 100 a processor with
inactivity limit 5 renders the active flags again at time 100. -/
theorem panel_inactivity_not_refreshed_by_observation :
    panel3.accepts_label ((Observation.ObservedOne 1 100 : Observation Nat).label) = true ∧
      ((panel3.handle_observation (.ObservedOne 1 100)).1).data.last_update = 0 ∧
      Panel.put_values_into_snapshot (panel3.handle_observation (.ObservedOne 1 100)).1 100
          false =
        [("_inactive", ItemKind.Boolean true), ("_active", ItemKind.Boolean false)] ∧
      (proc10.process [wrapObs (.ObservedOne 0 100)] 100 1
            .ProcessAll).1.put_values_into_snapshot 100 false =
        [("_inactive", ItemKind.Boolean false), ("_active", ItemKind.Boolean true)] := by
  exact ⟨rfl, rfl, rfl, rfl⟩

/-- C10: with no inactivity limit configured a node's own rendering emits
neither liveness flag (any flag at that level can only come from the node's
contents), and with a limit configured the flags are always emitted; so —
whenever the node's contents are flag-free at top level — a liveness flag
appears in the node's snapshot values exactly when an inactivity limit is
configured on that node, for panels, processors and mounts alike. -/
theorem liveness_flags_iff_inactivity_limit (pan : Panel Nat) (proc : TelemetryProcessor Nat)
    (mount : ProcessorMount) (now : Instant) (descriptive : Bool) :
    (hasFlag (panelContentOf pan.data
          (Panel.put_snapshot_list pan.panels now descriptive) descriptive) = false →
      hasFlag (pan.put_values_into_snapshot now descriptive) =
        pan.data.max_inactivity_duration.isSome) ∧
    (hasFlag (proc.content_items now descriptive) = false →
      hasFlag (proc.put_values_into_snapshot now descriptive) =
        proc.max_inactivity_duration.isSome) ∧
    (hasFlag (mount.content_items descriptive) = false →
      hasFlag (mount.put_values_into_snapshot now descriptive) =
        mount.max_inactivity_duration.isSome) := by
  refine ⟨?_, ?_, ?_⟩
  · intro hcf
    cases pan with
    | mk d ps =>
      simp only [Panel.data, Panel.panels] at hcf ⊢
      simp only [Panel.put_values_into_snapshot]
      cases hmid : d.max_inactivity_duration with
      | none => simp [hmid, hasFlag_append, hasFlag_putDefaultDescriptives, hcf]
      | some dur =>
        simp only [hmid]
        split <;>
          simp [hasFlag_append, hasFlag_putDefaultDescriptives, hasFlag, isFlagName]
  · intro hcf
    simp only [TelemetryProcessor.put_values_into_snapshot]
    cases hmid : proc.max_inactivity_duration with
    | none => simp [hmid, hasFlag_append, hasFlag_putDefaultDescriptives, hcf]
    | some dur =>
      simp only [hmid]
      split <;>
        simp [hasFlag_append, hasFlag_putDefaultDescriptives, hasFlag, isFlagName]
  · intro hcf
    simp only [ProcessorMount.put_values_into_snapshot]
    cases hmid : mount.max_inactivity_duration with
    | none => simp [hmid, hasFlag_append, hasFlag_putDefaultDescriptives, hcf]
    | some dur =>
      simp only [hmid]
      split <;>
        simp [hasFlag_append, hasFlag_putDefaultDescriptives, hasFlag, isFlagName]

/-- Witness for C10: a panel and a processor with limits render flags, a
mount without a limit renders none; all three have flag-free contents. -/
theorem liveness_flags_iff_inactivity_limit_witness :
    hasFlag (panel3.put_values_into_snapshot 0 false) =
        panel3.data.max_inactivity_duration.isSome ∧
      hasFlag (proc10.put_values_into_snapshot 0 false) =
        proc10.max_inactivity_duration.isSome ∧
      hasFlag (mount10.put_values_into_snapshot 0 false) =
        mount10.max_inactivity_duration.isSome := by
  have h := liveness_flags_iff_inactivity_limit panel3 proc10 mount10 0 false
  exact ⟨h.1 rfl, h.2.1 rfl, h.2.2 rfl⟩
